import Mathlib

/-!
Verification development for the TimeAnalysis repository (src/app.py and
src/config/settings.py).

The analytical engine is the class `TimeAnalyzer`.  We shallowly embed it:

* A pandas `DataFrame` is a record of optional columns (a column access
  `df['name']` on an absent column raises `KeyError`; we model raising with
  `Except String`).  The engine touches exactly the columns modelled here.
* IEEE-754 values are modelled exactly: a finite float is a rational `ℚ` and
  `NaN` (pandas' missing marker) is `none` in `PF := Option ℚ`.  Comparisons
  against `NaN` are false, aggregations skip `NaN` (pandas `skipna=True`),
  matching the float semantics on the paths the program exercises.
* `'YYYY-MM'` month keys are `(year, month)` pairs; lexicographic order on the
  pairs coincides with the string order pandas uses when sorting group keys
  (years are rendered with a fixed number of digits).
* `statsmodels.seasonal_decompose` is an external library, not code of this
  repository; it enters the embedding as an explicit function parameter
  (`DecompFun`) of the seasonality component.
-/

/-- A pandas/NumPy float64 cell: `some q` is the finite value `q`, `none` is
`NaN` (the missing-data marker produced by `pct_change`, `rolling.std` on a
single observation, zero-variance correlations, etc.). -/
abbrev PF := Option ℚ

/-- The `'YYYY-MM'` string key `month_year` as a `(year, month)` pair. -/
abbrev MonthKey := Int × Nat

/-- A parsed `transaction_date` (the model starts from already-parsed dates;
date-string parsing is outside the claims analysed here). -/
structure Date where
  y : Int
  m : Nat
  d : Nat
deriving DecidableEq, Repr

/-- Boolean chronological order on dates (`groupby('transaction_date')` sorts
its keys ascending). -/
def dateLe (a b : Date) : Bool :=
  decide (a.y < b.y ∨ (a.y = b.y ∧ (a.m < b.m ∨ (a.m = b.m ∧ a.d ≤ b.d))))

/-- Boolean order on years, for `groupby('year')`. -/
def intLe (a b : Int) : Bool := decide (a ≤ b)

/-- Boolean order on `(year, quarter)` pairs, for `groupby(['year','quarter'])`
(pandas sorts a MultiIndex lexicographically). -/
def yqLe (a b : Int × Nat) : Bool :=
  decide (a.1 < b.1 ∨ (a.1 = b.1 ∧ a.2 ≤ b.2))

/-- Boolean order on month keys: the `'YYYY-MM'` string order. -/
def monthLe (a b : MonthKey) : Bool :=
  decide (a.1 < b.1 ∨ (a.1 = b.1 ∧ a.2 ≤ b.2))

/-- Boolean order on naturals (seasonal-factor keys `'01'..'12'`). -/
def natLe (a b : Nat) : Bool := decide (a ≤ b)

/-- Boolean order on strings (pandas sorts `day_of_week` group keys by their
names). -/
def stringLe (a b : String) : Bool := decide (a ≤ b)

/-- Insert into a sorted list, placing the new element before the first entry
it is `le`-related to.  This is a stable insertion: among `le`-equivalent
entries, earlier input elements stay first (matching pandas stable sorts and
`nlargest(keep='first')`). -/
def sInsert (le : α → α → Bool) (a : α) : List α → List α
  | [] => [a]
  | b :: bs => if le a b then a :: b :: bs else b :: sInsert le a bs

/-- Stable insertion sort by a Boolean order. -/
def sortOn (le : α → α → Bool) : List α → List α
  | [] => []
  | a :: as => sInsert le a (sortOn le as)

/-- Sorted, duplicate-free group keys of a pandas `groupby` (`dedup` keeps
first occurrences; sorting is by the key order). -/
def groupKeys [DecidableEq K] (le : K → K → Bool) (ks : List K) : List K :=
  sortOn le ks.dedup

/-- `df.groupby(key)[measure].sum()`: a period-keyed series, keys sorted
ascending, one entry per distinct key holding the sum of its group. -/
def groupSum [DecidableEq K] (le : K → K → Bool) (pairs : List (K × ℚ)) :
    List (K × ℚ) :=
  (groupKeys le (pairs.map Prod.fst)).map fun k =>
    (k, ((pairs.filter fun p => decide (p.1 = k)).map Prod.snd).sum)

/-- `df.groupby(key).size()`: group sizes, keys sorted ascending. -/
def groupCount [DecidableEq K] (le : K → K → Bool) (ks : List K) :
    List (K × Nat) :=
  (groupKeys le ks).map fun k => (k, (ks.filter fun a => decide (a = k)).length)

/-- `df.groupby(key)[measure].mean()`: group means (groups are nonempty, so
the division is by a positive count). -/
def groupMean [DecidableEq K] (le : K → K → Bool) (pairs : List (K × ℚ)) :
    List (K × ℚ) :=
  (groupKeys le (pairs.map Prod.fst)).map fun k =>
    let vs := (pairs.filter fun p => decide (p.1 = k)).map Prod.snd
    (k, vs.sum / vs.length)

/-- Mean of a list of rationals (`Series.mean` of an all-finite series). -/
def meanQ (l : List ℚ) : ℚ := l.sum / l.length

/-- NaN-skipping mean (`Series.mean`, `skipna=True`): `NaN` entries are
dropped; the mean of no finite entries is `NaN`. -/
def nanMean (l : List PF) : PF :=
  let vs := l.filterMap id
  if vs.length = 0 then none else some (meanQ vs)

/-- Centered dot product `Σ (x i - x̄)(y i - ȳ)` over the index range of `x`
(both columns of one frame have the same length). -/
def centeredDot (x y : List ℚ) : ℚ :=
  ((List.range x.length).map fun i =>
    (x.getD i 0 - meanQ x) * (y.getD i 0 - meanQ y)).sum

/-- Sample variance with `ddof=1` (the pandas default for `Series.var` and
`Series.std`): `Σ (x i - x̄)² / (n - 1)`. -/
def sampleVar (x : List ℚ) : ℚ := centeredDot x x / ((x.length : ℚ) - 1)

/-- NaN-skipping sample variance (`Series.var`): with fewer than two finite
observations the `ddof=1` divisor is nonpositive and NumPy yields `NaN`. -/
def nanVar (l : List PF) : PF :=
  let vs := l.filterMap id
  if vs.length < 2 then none else some (sampleVar vs)

/-- Float addition: `NaN` propagates. -/
def pfAdd : PF → PF → PF
  | some a, some b => some (a + b)
  | _, _ => none

/-- Float division as it occurs in the engine.  `NaN` operands propagate and a
zero divisor yields `NaN`: the only zero-divisor division the engine performs
is the seasonal-strength ratio, whose numerator `var(seasonal)` is bounded by
its denominator `var(residual) + var(seasonal)`, so a zero divisor is always
the NumPy `0.0 / 0.0 = NaN` case (the `±inf` branch of float division is
unreachable there). -/
def pfDiv : PF → PF → PF
  | some a, some b => if b = 0 then none else some (a / b)
  | _, _ => none

/-- Float multiplication by a finite constant: `NaN` propagates. -/
def pfScale (c : ℚ) (x : PF) : PF := x.map (· * c)

/-- Is a float strictly positive?  False on `NaN` (`NaN > 0` is false), as in
`trend_changes.mean() > 0`. -/
def pfGtZero (x : PF) : Bool :=
  match x with
  | some v => decide (0 < v)
  | none => false

/-- Rounding to two decimal places, `x.round(2)`.  NumPy rounds halves to
even; `round` in Mathlib rounds halves up — the two agree except on exact
half-cent values, which no claim exercises. -/
def round2 (x : ℚ) : ℚ := ((round (x * 100) : ℤ) : ℚ) / 100

/-- `round(2)` on a float: `NaN` stays `NaN`. -/
def round2PF (x : PF) : PF := x.map round2

/-- The frame the engine works on.  Each field is one column the source reads
(`None` = the column is absent; reading it raises `KeyError`).  The five
derived columns are added by `prepare_data`. -/
structure DataFrame where
  transaction_date : Option (List Date) := none
  total_spend : Option (List ℚ) := none
  quantity_purchased : Option (List ℚ) := none
  lead_time : Option (List ℚ) := none
  year : Option (List Int) := none
  month : Option (List Nat) := none
  quarter : Option (List Nat) := none
  month_year : Option (List MonthKey) := none
  day_of_week : Option (List String) := none
deriving DecidableEq

/-- Column access `df['name']`: the value, or a raised `KeyError`. -/
def col (c : Option α) (name : String) : Except String α :=
  match c with
  | some v => Except.ok v
  | none => Except.error ("KeyError: " ++ name)

/-- `config/settings.py` `AnalysisSettings` with its declared defaults. -/
structure AnalysisSettings where
  min_months_for_seasonality : Nat := 12
  moving_average_windows : List Nat := [3, 6]
  top_peak_months : Nat := 5
  anomaly_detection_window : Nat := 7
  anomaly_std_threshold : ℚ := 2
  trend_significance_threshold : ℚ := 1 / 20
  correlation_strength_threshold : ℚ := 7 / 10
deriving DecidableEq

/-- `config/settings.py` `Config` (only the `analysis` section reaches the
engine). -/
structure Config where
  analysis : AnalysisSettings := {}
deriving DecidableEq

/-- `self.config.analysis.min_months_for_seasonality if self.config else 12`. -/
def min_months_of (cfg : Option Config) : Nat :=
  (cfg.map fun c => c.analysis.min_months_for_seasonality).getD 12

/-- `self.config.analysis.anomaly_std_threshold if self.config else 2.0`. -/
def threshold_of (cfg : Option Config) : ℚ :=
  (cfg.map fun c => c.analysis.anomaly_std_threshold).getD 2

/-- `self.config.analysis.anomaly_detection_window if self.config else 7`. -/
def window_of (cfg : Option Config) : Nat :=
  (cfg.map fun c => c.analysis.anomaly_detection_window).getD 7

/-- Weekday name of a date (`Series.dt.day_name()`), by Zeller's congruence. -/
def dayName (dt : Date) : String :=
  let bigY : Int := if dt.m ≤ 2 then dt.y - 1 else dt.y
  let bigM : Int := if dt.m ≤ 2 then (dt.m : Int) + 12 else (dt.m : Int)
  let k : Int := bigY % 100
  let j : Int := bigY / 100
  let h : Int := ((dt.d : Int) + (13 * (bigM + 1)) / 5 + k + k / 4 + j / 4 + 5 * j) % 7
  ["Saturday", "Sunday", "Monday", "Tuesday", "Wednesday", "Thursday",
    "Friday"].getD h.toNat ""

/-- `Series.pct_change()` on a finite-valued series: the first entry is `NaN`
(no prior period); a zero prior value makes the float quotient non-finite
(`±inf` or `NaN`), modelled as missing — no claim exercises that branch. -/
def pctChange (v : List ℚ) : List PF :=
  (List.range v.length).map fun i =>
    if i = 0 then none
    else
      let p := v.getD (i - 1) 0
      if p = 0 then none else some ((v.getD i 0 - p) / p)

/-- `pct_change()` on a series that may contain `NaN` (the acceleration series
`trend_changes.pct_change()`); an entry is `NaN` unless both it and its
predecessor are finite with a nonzero predecessor.  The pandas `pad`
pre-filling only matters for interior `NaN` runs, which the series reaching
this call (leading-`NaN` growth series) do not have. -/
def pctChangeO (v : List PF) : List PF :=
  (List.range v.length).map fun i =>
    if i = 0 then none
    else
      match v.getD (i - 1) none, v.getD i none with
      | some p, some c => if p = 0 then none else some ((c - p) / p)
      | _, _ => none

/-- `pct_change` applied to a period-keyed series, keeping the keys. -/
def pctChangeSeries {K : Type} (s : List (K × ℚ)) : List (K × PF) :=
  (s.map Prod.fst).zip (pctChange (s.map Prod.snd))

/-- Multiply a period-keyed float series by 100 (`pct_change() * 100`). -/
def scale100 {K : Type} (s : List (K × PF)) : List (K × PF) :=
  s.map fun p => (p.1, p.2.map (· * 100))

/-- One growth block of `enhanced_time_analysis`:
`df.groupby(key)[spend].sum().pct_change() * 100`. -/
def growth_series {K : Type} [DecidableEq K] (le : K → K → Bool)
    (pairs : List (K × ℚ)) : List (K × PF) :=
  scale100 (pctChangeSeries (groupSum le pairs))

/-- The trailing observations `rolling(window=w)` sees at index `i`: the last
`min (i+1) w` values up to and including position `i`. -/
def windowAt (v : List ℚ) (w i : Nat) : List ℚ :=
  (v.take (i + 1)).drop (i + 1 - w)

/-- `rolling(window=w, min_periods=1).mean()` at index `i`: the mean over the
available window (at least one observation for every valid index). -/
def rollingMeanAt (v : List ℚ) (w i : Nat) : ℚ := meanQ (windowAt v w i)

/-- The square of `rolling(window=w, min_periods=1).std()` at index `i`: the
`ddof=1` sample variance of the window, `NaN` on fewer than two
observations. -/
def rollingVarAt (v : List ℚ) (w i : Nat) : PF :=
  let win := windowAt v w i
  if win.length < 2 then none else some (sampleVar win)

/-- The anomaly mask `abs(x - rolling_mean) > threshold * rolling_std` at
index `i`.  The source compares against `threshold * √variance` in floats
(false when the std is `NaN`); since both sides are nonnegative for the
configured thresholds (`t ≥ 0`), this is equivalent to the decidable squared
comparison used here — the equivalence with the literal `√`-formula over `ℝ`
is proved in the anomaly-threshold theorem below. -/
def anomalyFlagAt (v : List ℚ) (t : ℚ) (w i : Nat) : Bool :=
  match rollingVarAt v w i with
  | none => false
  | some q => decide (t * t * q < (v.getD i 0 - rollingMeanAt v w i) ^ 2)

/-- Positions of the daily series selected by the anomaly mask
(`daily_spend[mask]` is a positional filter of the series). -/
def anomalyIdx (daily : List (Date × ℚ)) (t : ℚ) (w : Nat) : List Nat :=
  (List.range daily.length).filter fun i =>
    anomalyFlagAt (daily.map Prod.snd) t w i

/-- `rolling(window=w).mean()` with the default `min_periods = w` (the moving
averages `ma3`/`ma6`): `NaN` until a full window exists. -/
def rollingMeanW (w : Nat) (v : List ℚ) : List PF :=
  (List.range v.length).map fun i =>
    if i + 1 < w then none else some (meanQ (windowAt v w i))

/-- A moving-average block: full-window rolling mean over a monthly series,
keys kept. -/
def moving_average (w : Nat) (monthly : List (MonthKey × ℚ)) :
    List (MonthKey × PF) :=
  (monthly.map Prod.fst).zip (rollingMeanW w (monthly.map Prod.snd))

/-- Return shape of `calculate_trend_metrics`. -/
structure TrendMetrics where
  direction : String
  strength : PF
  is_accelerating : Bool
  acceleration_rate : PF
deriving DecidableEq

/-- The `except` fallback of `calculate_trend_metrics`. -/
def trendFallback : TrendMetrics :=
  { direction := "Unknown", strength := some 0, is_accelerating := false,
    acceleration_rate := some 0 }

/-- Body of the `try` block of `calculate_trend_metrics`. -/
def calcTrendRaw (df : DataFrame) : Except String TrendMetrics := do
  let mk ← col df.month_year "month_year"
  let sp ← col df.total_spend "Total Spend ($)"
  let monthly := groupSum monthLe (mk.zip sp)
  let trend_changes := pctChange (monthly.map Prod.snd)
  let m := nanMean trend_changes
  let trend_direction := if pfGtZero m then "Upward" else "Downward"
  let trend_strength := m.map fun v => |v| * 100
  let acceleration := pctChangeO trend_changes
  let is_accelerating := pfGtZero (nanMean acceleration)
  return { direction := trend_direction, strength := trend_strength,
           is_accelerating := is_accelerating,
           acceleration_rate := (nanMean acceleration).map (· * 100) }

/-- `TimeAnalyzer.calculate_trend_metrics`: the whole body is wrapped in
`try/except`, any failure yields the fixed fallback record. -/
def calculate_trend_metrics (df : DataFrame) : TrendMetrics :=
  match calcTrendRaw df with
  | Except.ok t => t
  | Except.error _ => trendFallback

/-- Return shape of `detect_anomalies`. -/
structure AnomalyResult where
  anomalies : List (Date × ℚ)
  anomaly_dates : List Date
  total_anomalies : Nat
deriving DecidableEq

/-- The `except` fallback of `detect_anomalies`: empty anomaly set. -/
def anomalyFallback : AnomalyResult :=
  { anomalies := [], anomaly_dates := [], total_anomalies := 0 }

/-- Body of the `try` block of `detect_anomalies`. -/
def detectAnomaliesRaw (df : DataFrame) (cfg : Option Config) :
    Except String AnomalyResult := do
  let dates ← col df.transaction_date "transaction_date"
  let sp ← col df.total_spend "Total Spend ($)"
  let daily := groupSum dateLe (dates.zip sp)
  let idx := anomalyIdx daily (threshold_of cfg) (window_of cfg)
  let anoms := idx.filterMap fun i => daily.get? i
  return { anomalies := anoms, anomaly_dates := anoms.map Prod.fst,
           total_anomalies := anoms.length }

/-- `TimeAnalyzer.detect_anomalies`: `try/except` wrapped, failures yield the
empty anomaly record. -/
def detect_anomalies (df : DataFrame) (cfg : Option Config) : AnomalyResult :=
  match detectAnomaliesRaw df cfg with
  | Except.ok a => a
  | Except.error _ => anomalyFallback

/-- Return shape of `analyze_purchase_patterns`. -/
structure PurchaseResult where
  monthly_aov : List (MonthKey × ℚ)
  purchase_frequency : List (MonthKey × Nat)
  basket_size : List (MonthKey × ℚ)
deriving DecidableEq

/-- The `except` fallback of `analyze_purchase_patterns`: empty mappings. -/
def purchaseFallback : PurchaseResult :=
  { monthly_aov := [], purchase_frequency := [], basket_size := [] }

/-- Body of the `try` block of `analyze_purchase_patterns`.  The AOV divides
the per-month spend sum by the per-month row count (the two series share the
same sorted month index, so the aligned quotient is the per-key quotient). -/
def purchasePatternsRaw (df : DataFrame) : Except String PurchaseResult := do
  let mk ← col df.month_year "month_year"
  let sp ← col df.total_spend "Total Spend ($)"
  let q ← col df.quantity_purchased "Quantity Purchased"
  let monthly_aov := (groupSum monthLe (mk.zip sp)).map fun p =>
    (p.1, round2 (p.2 / ((mk.filter fun a => decide (a = p.1)).length : ℚ)))
  let customer_frequency := groupCount monthLe mk
  let basket_size := (groupMean monthLe (mk.zip q)).map fun p =>
    (p.1, round2 p.2)
  return { monthly_aov := monthly_aov, purchase_frequency := customer_frequency,
           basket_size := basket_size }

/-- `TimeAnalyzer.analyze_purchase_patterns`: `try/except` wrapped. -/
def analyze_purchase_patterns (df : DataFrame) : PurchaseResult :=
  match purchasePatternsRaw df with
  | Except.ok p => p
  | Except.error _ => purchaseFallback

/-- Return shape of `analyze_correlations` (float values: `none` is the `NaN`
pandas returns for a zero-variance or too-short column). -/
structure Correlations where
  spend_quantity : Option ℝ
  spend_leadtime : Option ℝ
  quantity_leadtime : Option ℝ

/-- The `except` fallback of `analyze_correlations`: all coefficients `0.0`. -/
noncomputable def corrFallback : Correlations :=
  { spend_quantity := some 0, spend_leadtime := some 0,
    quantity_leadtime := some 0 }

/-- `Series.corr` (Pearson): `cov / (σx · σy)`, i.e.
`Σ(x-x̄)(y-ȳ) / (√Σ(x-x̄)² · √Σ(y-ȳ)²)` after the `ddof` factors cancel.
When either column has zero variance (including columns shorter than two
rows) the float quotient is `0.0 / 0.0 = NaN`. -/
noncomputable def pearson (x y : List ℚ) : Option ℝ :=
  if centeredDot x x = 0 ∨ centeredDot y y = 0 then none
  else
    some (((centeredDot x y : ℚ) : ℝ) /
      (Real.sqrt ((centeredDot x x : ℚ) : ℝ) *
        Real.sqrt ((centeredDot y y : ℚ) : ℝ)))

/-- Body of the `try` block of `analyze_correlations` (accessing the optional
`'Lead Time (Days)'` column raises `KeyError` when it is absent, which aborts
the whole dict construction). -/
noncomputable def correlationsRaw (df : DataFrame) : Except String Correlations := do
  let sp ← col df.total_spend "Total Spend ($)"
  let q ← col df.quantity_purchased "Quantity Purchased"
  let lt ← col df.lead_time "Lead Time (Days)"
  return { spend_quantity := pearson sp q, spend_leadtime := pearson sp lt,
           quantity_leadtime := pearson q lt }

/-- `TimeAnalyzer.analyze_correlations`: `try/except` wrapped, failures yield
the all-zero fallback. -/
noncomputable def analyze_correlations (df : DataFrame) : Correlations :=
  match correlationsRaw df with
  | Except.ok c => c
  | Except.error _ => corrFallback

/-- Output of `statsmodels.seasonal_decompose(monthly, period=12)`: three
sub-series aligned to the month keys (trend edges are `NaN`, hence `PF`). -/
structure Decomposition where
  seasonal : List (MonthKey × PF)
  trend : List (MonthKey × PF)
  resid : List (MonthKey × PF)
deriving DecidableEq

/-- The external decomposition routine, abstracted: it may also raise. -/
abbrev DecompFun := List (MonthKey × ℚ) → Except String Decomposition

/-- The two dict shapes `analyze_seasonality` returns: the full block, or the
`has_seasonality: False` block carrying only a message. -/
inductive SeasonalityResult where
  | success (seasonal_strength : PF) (peak_month : Nat) (trough_month : Nat)
      (seasonal_factors : List (Nat × PF)) (components : Decomposition)
  | insufficient (message : String)
deriving DecidableEq

/-- The `has_seasonality` field of either dict shape. -/
def SeasonalityResult.has_seasonality : SeasonalityResult → Bool
  | .success _ _ _ _ _ => true
  | .insufficient _ => false

/-- The `seasonal_strength` field, when the block has one. -/
def SeasonalityResult.strengthOf : SeasonalityResult → Option PF
  | .success s _ _ _ _ => some s
  | .insufficient _ => none

/-- The literal short-history message of `analyze_seasonality` (the source
interpolates nothing: the braces are part of the string). -/
def insufficientMsg : String :=
  "Insufficient data for seasonal analysis (need at least {min_months} months)"

/-- `Series.idxmax` on the seasonal factors: the first key attaining the
maximum among the finite values; raises on an all-`NaN` series. -/
def idxmaxPF (l : List (Nat × PF)) : Except String Nat :=
  match l.filterMap (fun p => p.2.map fun v => (p.1, v)) with
  | [] => Except.error "ValueError: attempt to get argmax of an empty sequence"
  | x :: xs =>
    Except.ok (xs.foldl (fun best p => if best.2 < p.2 then p else best) x).1

/-- `Series.idxmin` on the seasonal factors, dually. -/
def idxminPF (l : List (Nat × PF)) : Except String Nat :=
  match l.filterMap (fun p => p.2.map fun v => (p.1, v)) with
  | [] => Except.error "ValueError: attempt to get argmin of an empty sequence"
  | x :: xs =>
    Except.ok (xs.foldl (fun best p => if p.2 < best.2 then p else best) x).1

/-- The seasonal-strength computation of `analyze_seasonality`:
`(seasonal.var() / float(residual.var() + seasonal.var()) * 100).round(2)`. -/
def seasonal_strength_of (seasonal resid : List PF) : PF :=
  round2PF (pfScale 100 (pfDiv (nanVar seasonal) (pfAdd (nanVar resid) (nanVar seasonal))))

/-- Body of the `try` block of `analyze_seasonality`: monthly aggregation,
the minimum-history gate, then decomposition, strength, per-calendar-month
seasonal factors (grouping the seasonal series by the `'MM'` slice of its
key) and their argmax/argmin. -/
def seasonalityRaw (dm : DecompFun) (df : DataFrame) (cfg : Option Config) :
    Except String SeasonalityResult := do
  let mk ← col df.month_year "month_year"
  let sp ← col df.total_spend "Total Spend ($)"
  let monthly_spend := groupSum monthLe (mk.zip sp)
  if monthly_spend.length ≥ min_months_of cfg then do
    let dec ← dm monthly_spend
    let strength := seasonal_strength_of (dec.seasonal.map Prod.snd)
      (dec.resid.map Prod.snd)
    let seasonal_factors := (groupKeys natLe (dec.seasonal.map fun p => p.1.2)).map
      fun mo => (mo, nanMean ((dec.seasonal.filter fun p => decide (p.1.2 = mo)).map Prod.snd))
    let peak ← idxmaxPF seasonal_factors
    let trough ← idxminPF seasonal_factors
    return SeasonalityResult.success strength peak trough seasonal_factors dec
  else
    return SeasonalityResult.insufficient insufficientMsg

/-- `TimeAnalyzer.analyze_seasonality`: `try/except` wrapped; any raised
failure degrades to the `has_seasonality: False` shape with a diagnostic
message. -/
def analyze_seasonality (dm : DecompFun) (df : DataFrame) (cfg : Option Config) :
    SeasonalityResult :=
  match seasonalityRaw dm df cfg with
  | Except.ok r => r
  | Except.error e =>
    SeasonalityResult.insufficient ("Error in seasonal analysis: " ++ e)

/-- One row of the `dow_stats` frame (total / average / count / quantity per
weekday, rounded to two decimals). -/
structure DowRow where
  total_spend : ℚ
  average_spend : ℚ
  transaction_count : Nat
  total_quantity : ℚ
deriving DecidableEq

/-- The `dow_stats` frame: one row per weekday name present, index sorted by
name (pandas aligns the four groupbys on their common sorted key index). -/
def mkDowStats (dow : List String) (sp q : List ℚ) : List (String × DowRow) :=
  (groupKeys stringLe dow).map fun k =>
    let spk := ((dow.zip sp).filter fun p => decide (p.1 = k)).map Prod.snd
    let qk := ((dow.zip q).filter fun p => decide (p.1 = k)).map Prod.snd
    (k, { total_spend := round2 spk.sum, average_spend := round2 (meanQ spk),
          transaction_count := spk.length, total_quantity := round2 qk.sum })

/-- The Analysis Result dict returned by `enhanced_time_analysis`. -/
structure AnalysisResult where
  yearly_growth : List (Int × PF)
  quarterly_growth : List ((Int × Nat) × PF)
  monthly_growth : List (MonthKey × PF)
  moving_average_3m : List (MonthKey × PF)
  moving_average_6m : List (MonthKey × PF)
  peak_months : List (MonthKey × ℚ)
  day_of_week_stats : List (String × DowRow)
  raw_monthly_spend : List (MonthKey × ℚ)
  trend_analysis : TrendMetrics
  anomalies : AnomalyResult
  purchase_patterns : PurchaseResult
  correlations : Correlations
  seasonality_metrics : SeasonalityResult

/-- Body of the outer `try` block of `enhanced_time_analysis`: the growth,
moving-average, peak-month and day-of-week computations are performed inline
(their column accesses can raise out of this block), while the five helper
methods are each internally fault-isolated and never raise. -/
noncomputable def enhancedRaw (dm : DecompFun) (df : DataFrame)
    (cfg : Option Config) : Except String AnalysisResult := do
  let yr ← col df.year "year"
  let sp ← col df.total_spend "Total Spend ($)"
  let qt ← col df.quarter "quarter"
  let mk ← col df.month_year "month_year"
  let monthly_spend := groupSum monthLe (mk.zip sp)
  let dow ← col df.day_of_week "day_of_week"
  let q ← col df.quantity_purchased "Quantity Purchased"
  return { yearly_growth := growth_series intLe (yr.zip sp),
           quarterly_growth := growth_series yqLe ((yr.zip qt).zip sp),
           monthly_growth := growth_series monthLe (mk.zip sp),
           moving_average_3m := moving_average 3 monthly_spend,
           moving_average_6m := moving_average 6 monthly_spend,
           peak_months := (sortOn (fun a b => decide (b.2 ≤ a.2)) monthly_spend).take 5,
           day_of_week_stats := mkDowStats dow sp q,
           raw_monthly_spend := monthly_spend,
           trend_analysis := calculate_trend_metrics df,
           anomalies := detect_anomalies df cfg,
           purchase_patterns := analyze_purchase_patterns df,
           correlations := analyze_correlations df,
           seasonality_metrics := analyze_seasonality dm df cfg }

/-- `TimeAnalyzer.enhanced_time_analysis`: on any failure escaping the outer
`try` the method reports an error and returns `None` — no partial Analysis
Result survives. -/
noncomputable def enhanced_time_analysis (dm : DecompFun) (df : DataFrame)
    (cfg : Option Config) : Option AnalysisResult :=
  match enhancedRaw dm df cfg with
  | Except.ok r => some r
  | Except.error _ => none

/-- `TimeAnalyzer.prepare_data`: adds the five derived calendar columns to
the frame (in place, see `TimeAnalyzer_init`). -/
def prepare_data (df : DataFrame) : Except String DataFrame := do
  let ds ← col df.transaction_date "transaction_date"
  return { df with year := some (ds.map fun d => d.y),
                   month := some (ds.map fun d => d.m),
                   quarter := some (ds.map fun d => (d.m + 2) / 3),
                   month_year := some (ds.map fun d => ((d.y, d.m) : MonthKey)),
                   day_of_week := some (ds.map dayName) }

/-- `TimeAnalyzer.__init__`: `self.df = df` binds the caller's frame object
itself (no copy), so the datetime conversion of `transaction_date` and the
columns added by `prepare_data` are in-place mutations of the caller's frame
— after construction the caller's binding refers to the frame returned
here.  (Dates are modelled already parsed, so `pd.to_datetime` re-delivers
the same column.) -/
def TimeAnalyzer_init (df : DataFrame) : Except String DataFrame := do
  let ds ← col df.transaction_date "transaction_date"
  prepare_data { df with transaction_date := some ds }

/-- The required-column list of `main`. -/
def required_columns : List String :=
  ["transaction_date", "Total Spend ($)", "Quantity Purchased"]

/-- `col in df.columns` for the columns the source ever names. -/
def hasCol (df : DataFrame) : String → Bool
  | "transaction_date" => df.transaction_date.isSome
  | "Total Spend ($)" => df.total_spend.isSome
  | "Quantity Purchased" => df.quantity_purchased.isSome
  | "Lead Time (Days)" => df.lead_time.isSome
  | "year" => df.year.isSome
  | "month" => df.month.isSome
  | "quarter" => df.quarter.isSome
  | "month_year" => df.month_year.isSome
  | "day_of_week" => df.day_of_week.isSome
  | _ => false

/-- The required columns actually absent from an uploaded frame. -/
def missing_required (df : DataFrame) : List String :=
  required_columns.filter fun c => !hasCol df c

/-- The upload path of `main`: if any required column is missing it shows one
fixed error message naming all three required columns (the payload here) and
returns with no analysis; otherwise it constructs the analyzer (mutating the
frame) and runs the analysis (its own unexpected failures surface as the
outer error path). -/
noncomputable def main_process (dm : DecompFun) (df : DataFrame) (cfg : Config) :
    Except (List String) (Option AnalysisResult) :=
  if required_columns.all (hasCol df) then
    match TimeAnalyzer_init df with
    | Except.ok df2 => Except.ok (enhanced_time_analysis dm df2 (some cfg))
    | Except.error e => Except.error [e]
  else
    Except.error required_columns

section Lemmas

theorem sInsert_length (le : α → α → Bool) (a : α) (l : List α) :
    (sInsert le a l).length = l.length + 1 := by
  induction l with
  | nil => rfl
  | cons b bs ih =>
    simp only [sInsert]
    split
    · simp
    · simp [ih]

theorem sortOn_length (le : α → α → Bool) (l : List α) :
    (sortOn le l).length = l.length := by
  induction l with
  | nil => rfl
  | cons a as ih => simp [sortOn, sInsert_length, ih]

theorem sortOn_ne_nil (le : α → α → Bool) (l : List α) (h : l ≠ []) :
    sortOn le l ≠ [] := by
  intro hc
  have := sortOn_length le l
  rw [hc] at this
  exact h (List.length_eq_zero.mp this.symm)

theorem groupSum_ne_nil [DecidableEq K] (le : K → K → Bool)
    (pairs : List (K × ℚ)) (h : pairs ≠ []) : groupSum le pairs ≠ [] := by
  have hk : pairs.map Prod.fst ≠ [] := by
    simpa using h
  have hd : (pairs.map Prod.fst).dedup ≠ [] := by
    intro hc
    exact hk ((List.dedup_eq_nil _).mp hc)
  have hs := sortOn_ne_nil le _ hd
  simp only [groupSum, groupKeys]
  intro hc
  exact hs (List.map_eq_nil_iff.mp hc)

theorem pctChange_cons (a : ℚ) (as : List ℚ) :
    ∃ t, pctChange (a :: as) = none :: t := by
  simp only [pctChange, List.length_cons, List.range_succ_eq_map, List.map_cons,
    eq_self_iff_true, if_true]
  exact ⟨_, rfl⟩

theorem growth_series_head {K : Type} [DecidableEq K] (le : K → K → Bool)
    (pairs : List (K × ℚ)) (h : pairs ≠ []) :
    (growth_series le pairs).head?.map Prod.snd = some none := by
  obtain ⟨p, rest, hg⟩ := List.exists_cons_of_ne_nil (groupSum_ne_nil le pairs h)
  obtain ⟨t, ht⟩ := pctChange_cons p.2 (rest.map Prod.snd)
  simp only [growth_series, scale100, pctChangeSeries, hg, List.map_cons]
  rw [ht]
  simp

end Lemmas

/-- C2: for every non-empty period-keyed spend series, the first period of
the percent-change growth block (`groupby(...).sum().pct_change() * 100`, as
built for the yearly, quarterly and monthly granularities of the Analysis
Result) carries the missing value `NaN` — never the number `0` and never any
numeric default. -/
theorem growth_first_period_missing {K : Type} [DecidableEq K]
    (le : K → K → Bool) (pairs : List (K × ℚ)) (h : pairs ≠ []) :
    (growth_series le pairs).head?.map Prod.snd = some none :=
  growth_series_head le pairs h

theorem growth_first_period_missing_witness :
    ([((2022 : Int), (5 : ℚ)), (2023, 10)] ≠ []) ∧
      (growth_series intLe [((2022 : Int), (5 : ℚ)), (2023, 10)]).head?.map
        Prod.snd = some none :=
  ⟨by decide, growth_first_period_missing intLe _ (by decide)⟩

/-- C6: a moving-average block with window `w` (the source instantiates
`w = 3` and `w = 6`) has a missing value at exactly the first `w - 1`
positions of the monthly series: index `i` holds `NaN` iff `i + 1 < w`, and
from the `w`-th period onward a finite value is present. -/
theorem moving_average_window_gating (w : Nat) (v : List ℚ) (i : Nat)
    (h : i < v.length) :
    ((rollingMeanW w v).getD i none = none ↔ i + 1 < w) ∧
      (w ≤ i + 1 → ∃ x, (rollingMeanW w v).getD i none = some x) := by
  have hred : (rollingMeanW w v).getD i none =
      (if i + 1 < w then none else some (meanQ (windowAt v w i))) := by
    simp only [rollingMeanW]
    rw [List.getD_eq_getElem?_getD, List.getElem?_map, List.getElem?_range h]
    rfl
  rw [hred]
  constructor
  · split
    · simp_all
    · simp_all
  · intro hw
    rw [if_neg (by omega)]
    exact ⟨_, rfl⟩

theorem moving_average_window_gating_witness :
    (1 : Nat) < 4 ∧
      (((rollingMeanW 3 [(1 : ℚ), 2, 3, 4]).getD 1 none = none ↔ 1 + 1 < 3) ∧
        (3 ≤ 1 + 1 → ∃ x, (rollingMeanW 3 [(1 : ℚ), 2, 3, 4]).getD 1 none = some x)) :=
  ⟨by decide, moving_average_window_gating 3 [1, 2, 3, 4] 1 (by decide)⟩

/-- C10: the first day of a daily series is never flagged anomalous: its
rolling window holds a single observation, whose `ddof=1` standard deviation
is `NaN`, so the strict anomaly comparison is false there no matter the
value, threshold or window size; position `0` never enters the anomaly
index. -/
theorem first_day_never_anomalous :
    (∀ (v : List ℚ) (w : Nat), rollingVarAt v w 0 = none) ∧
      (∀ (v : List ℚ) (t : ℚ) (w : Nat), anomalyFlagAt v t w 0 = false) ∧
      (∀ (daily : List (Date × ℚ)) (t : ℚ) (w : Nat),
        0 ∉ anomalyIdx daily t w) := by
  have hvar : ∀ (v : List ℚ) (w : Nat), rollingVarAt v w 0 = none := by
    intro v w
    have hlen : (windowAt v w 0).length < 2 := by
      have h1 : (windowAt v w 0).length ≤ (v.take 1).length := by
        simp [windowAt]
      have h2 : (v.take 1).length ≤ 1 := by
        simp
      omega
    simp [rollingVarAt, hlen]
  have hflag : ∀ (v : List ℚ) (t : ℚ) (w : Nat),
      anomalyFlagAt v t w 0 = false := by
    intro v t w
    simp [anomalyFlagAt, hvar]
  refine ⟨hvar, hflag, ?_⟩
  intro daily t w hc
  have := List.of_mem_filter hc
  rw [hflag] at this
  exact Bool.false_ne_true this

/-- A decomposition stub used for concrete runs: all-zero seasonal and
residual components, `NaN` trend edges. -/
def dmZ : DecompFun := fun monthly =>
  Except.ok { seasonal := monthly.map fun p => (p.1, some 0),
              trend := monthly.map fun p => (p.1, none),
              resid := monthly.map fun p => (p.1, some 0) }

/-- A decomposition stub that raises. -/
def dmRaise : DecompFun := fun _ => Except.error "decomposition failure"

/-- C4: whenever the monthly series is shorter than
`min_months_for_seasonality`, `analyze_seasonality` returns the structured
`has_seasonality: False` block with the fixed insufficient-data message via
a normal return (no exception), and the decomposition routine is never
invoked: the result does not depend on which decomposition function is
supplied. -/
theorem seasonality_gating (dm dm2 : DecompFun) (df : DataFrame)
    (cfg : Option Config) (mk : List MonthKey) (sp : List ℚ)
    (hmk : df.month_year = some mk) (hsp : df.total_spend = some sp)
    (hlen : (groupSum monthLe (mk.zip sp)).length < min_months_of cfg) :
    analyze_seasonality dm df cfg =
        SeasonalityResult.insufficient insufficientMsg ∧
      analyze_seasonality dm df cfg = analyze_seasonality dm2 df cfg ∧
      (analyze_seasonality dm df cfg).has_seasonality = false := by
  have hrun : ∀ dmx : DecompFun, analyze_seasonality dmx df cfg =
      SeasonalityResult.insufficient insufficientMsg := by
    intro dmx
    simp only [analyze_seasonality, seasonalityRaw, hmk, hsp, col, bind,
      Except.bind]
    rw [if_neg (not_le.mpr hlen)]
    rfl
  refine ⟨hrun dm, ?_, ?_⟩
  · rw [hrun dm, hrun dm2]
  · rw [hrun dm]
    rfl

theorem seasonality_gating_witness :
    ((({ month_year := some [((2023 : Int), 1)], total_spend := some [(4 : ℚ)] } :
        DataFrame).month_year = some [((2023 : Int), 1)]) ∧
      (groupSum monthLe ([((2023 : Int), 1)].zip [(4 : ℚ)])).length <
        min_months_of none) ∧
      analyze_seasonality dmRaise
          { month_year := some [((2023 : Int), 1)], total_spend := some [(4 : ℚ)] }
          none = SeasonalityResult.insufficient insufficientMsg :=
  ⟨⟨rfl, by decide⟩,
    (seasonality_gating dmRaise dmZ _ none [((2023 : Int), 1)] [(4 : ℚ)] rfl rfl
      (by decide)).1⟩

/-- C9 (amended): for every input frame missing at least one required
column, `main` fails before constructing the analyzer — it emits the fixed
error message naming the three required columns and returns with no
analysis result, partial or otherwise. -/
theorem missing_columns_fail_before_analysis (dm : DecompFun) (df : DataFrame)
    (cfg : Config) (h : missing_required df ≠ []) :
    main_process dm df cfg = Except.error required_columns := by
  have hall : ¬ (required_columns.all (hasCol df) = true) := by
    intro hc
    apply h
    rw [missing_required, List.filter_eq_nil_iff]
    intro c hcmem
    have := List.all_eq_true.mp hc c hcmem
    simp [this]
  simp only [main_process]
  rw [if_neg hall]

theorem missing_columns_fail_before_analysis_witness :
    (missing_required { transaction_date := some [], total_spend := some [] } ≠ []) ∧
      main_process dmZ { transaction_date := some [], total_spend := some [] }
        {} = Except.error required_columns :=
  ⟨by decide, missing_columns_fail_before_analysis dmZ _ {} (by decide)⟩

/-- C9 (counterexample to the claim as stated): a frame missing exactly the
column `'Quantity Purchased'` is rejected with the fixed message naming all
three required columns — the reported names are not the names of exactly the
missing columns. -/
theorem missing_column_message_counterexample :
    main_process dmZ { transaction_date := some [], total_spend := some [] }
        {} = Except.error required_columns ∧
      missing_required { transaction_date := some [], total_spend := some [] } =
        ["Quantity Purchased"] ∧
      required_columns ≠ ["Quantity Purchased"] := by
  refine ⟨?_, by decide, by decide⟩
  simp only [main_process]
  rw [if_neg (by decide)]

/-- C7 (amended): constructing the analyzer succeeds exactly by decorating
the frame: the four source columns (`transaction_date`, spend, quantity,
lead time) keep their values, and the five derived calendar columns are
present afterwards.  Because `self.df = df` aliases the caller's frame and
the column assignments mutate it in place, the frame returned here is the
caller's frame after construction. -/
theorem init_preserves_source_columns (df df2 : DataFrame)
    (h : TimeAnalyzer_init df = Except.ok df2) :
    df2.transaction_date = df.transaction_date ∧
      df2.total_spend = df.total_spend ∧
      df2.quantity_purchased = df.quantity_purchased ∧
      df2.lead_time = df.lead_time ∧
      df2.year.isSome ∧ df2.month.isSome ∧ df2.quarter.isSome ∧
      df2.month_year.isSome ∧ df2.day_of_week.isSome := by
  match hd : df.transaction_date with
  | none =>
    rw [TimeAnalyzer_init] at h
    simp only [hd, col, bind, Except.bind] at h
    exact Except.noConfusion h
  | some ds =>
    rw [TimeAnalyzer_init] at h
    simp only [hd, col, bind, Except.bind, prepare_data] at h
    obtain rfl := (Except.ok.injEq _ _).mp h
    simp [hd]

/-- The smallest upload frame: one January 2023 transaction. -/
def exDf : DataFrame :=
  { transaction_date := some [⟨2023, 1, 15⟩], total_spend := some [5],
    quantity_purchased := some [3] }

/-- The frame the caller is left holding after `TimeAnalyzer(df, config)`:
the same source columns plus the five derived columns. -/
def exDfAfter : DataFrame :=
  { transaction_date := some [⟨2023, 1, 15⟩], total_spend := some [5],
    quantity_purchased := some [3], year := some [2023], month := some [1],
    quarter := some [1], month_year := some [((2023 : Int), 1)],
    day_of_week := some ["Sunday"] }

theorem init_preserves_source_columns_witness :
    TimeAnalyzer_init exDf = Except.ok exDfAfter ∧
      (exDfAfter.transaction_date = exDf.transaction_date ∧
        exDfAfter.total_spend = exDf.total_spend ∧
        exDfAfter.quantity_purchased = exDf.quantity_purchased ∧
        exDfAfter.lead_time = exDf.lead_time ∧
        exDfAfter.year.isSome ∧ exDfAfter.month.isSome ∧
        exDfAfter.quarter.isSome ∧ exDfAfter.month_year.isSome ∧
        exDfAfter.day_of_week.isSome) :=
  ⟨rfl, init_preserves_source_columns exDf exDfAfter rfl⟩

/-- C7 (counterexample to the claim as stated): constructing the analyzer on
a concrete one-row frame succeeds, and the frame the caller holds afterwards
(the aliased, in-place-mutated object) differs from the frame it supplied —
the source data is not left unchanged; no untouched copy is made. -/
theorem init_mutates_caller_frame :
    TimeAnalyzer_init exDf = Except.ok exDfAfter ∧ exDfAfter ≠ exDf :=
  ⟨rfl, by decide⟩

/-- A two-month frame and a configuration with the seasonality gate lowered
to two months, for exercising the decomposition branch concretely. -/
def cfg2 : Config := { analysis := { min_months_for_seasonality := 2 } }

/-- Companion frame for `cfg2`: two months of constant spend. -/
def dfS : DataFrame :=
  { month_year := some [((2023 : Int), 1), (2023, 2)], total_spend := some [1, 1] }

/-- C8 (amended): when both the seasonal and the residual component have zero
variance, the seasonal-strength computation
`var(seasonal) / (var(seasonal) + var(residual)) * 100` is the float quotient
`0.0 / 0.0 = NaN`: the reported strength is the missing value `NaN` — not a
raised division error, but not `0%` either.  Concretely, a constant
decomposition flows through `analyze_seasonality` to a normal
`has_seasonality: True` block whose strength field is `NaN`. -/
theorem seasonal_strength_zero_variance_missing (s r : List PF)
    (hs : nanVar s = some 0) (hr : nanVar r = some 0) :
    seasonal_strength_of s r = none := by
  simp [seasonal_strength_of, hs, hr, pfAdd, pfDiv, pfScale, round2PF]

theorem seasonal_strength_zero_variance_missing_witness :
    (nanVar [some 0, some 0] = some 0 ∧ nanVar [some 1, some 1] = some 0) ∧
      seasonal_strength_of [some 0, some 0] [some 1, some 1] = none := by
  have h1 : nanVar [(some 0 : PF), some 0] = some 0 := by
    norm_num [nanVar, sampleVar, centeredDot, meanQ, List.filterMap,
      List.range_succ]
  have h2 : nanVar [(some 1 : PF), some 1] = some 0 := by
    norm_num [nanVar, sampleVar, centeredDot, meanQ, List.filterMap,
      List.range_succ]
  exact ⟨⟨h1, h2⟩, seasonal_strength_zero_variance_missing _ _ h1 h2⟩

/-- C8 (counterexample to the claim as stated): a concrete zero-variance
decomposition of a two-month constant series flows through the seasonal
branch without any exception, but the reported strength is `NaN`, not `0%`:
the block is `has_seasonality: True` with a missing strength value. -/
theorem seasonal_strength_not_zero_counterexample :
    (analyze_seasonality dmZ dfS (some cfg2)).strengthOf = some none ∧
      (analyze_seasonality dmZ dfS (some cfg2)).has_seasonality = true ∧
      (analyze_seasonality dmZ dfS (some cfg2)).strengthOf ≠ some (some 0) := by
  have h1 : (analyze_seasonality dmZ dfS (some cfg2)).strengthOf = some none ∧
      (analyze_seasonality dmZ dfS (some cfg2)).has_seasonality = true := by
    constructor <;>
    (simp +decide only [analyze_seasonality, seasonalityRaw, col, bind, Except.bind,
      dmZ, dfS, groupSum, groupKeys, sortOn, sInsert, monthLe, natLe, min_months_of,
      cfg2, seasonal_strength_of, nanVar, sampleVar, centeredDot, meanQ, pfAdd,
      pfDiv, pfScale, round2PF, idxmaxPF, idxminPF, nanMean, pure, Except.pure,
      SeasonalityResult.strengthOf, SeasonalityResult.has_seasonality,
      List.filterMap, List.foldl, Option.map, List.map, List.filter, List.zip,
      List.zipWith, List.dedup, List.sum, List.length, List.range, List.getD,
      Prod.fst, Prod.snd]
     try norm_num)
  refine ⟨h1.1, h1.2, ?_⟩
  rw [h1.1]
  simp

theorem centeredDot_self_nonneg (x : List ℚ) : 0 ≤ centeredDot x x := by
  apply List.sum_nonneg
  intro a ha
  obtain ⟨i, _, rfl⟩ := List.mem_map.mp ha
  exact mul_self_nonneg _

theorem sampleVar_nonneg (x : List ℚ) (h : 2 ≤ x.length) : 0 ≤ sampleVar x := by
  apply div_nonneg (centeredDot_self_nonneg x)
  have : (2 : ℚ) ≤ (x.length : ℚ) := by exact_mod_cast h
  linarith

theorem rollingVarAt_nonneg (v : List ℚ) (w i : Nat) (q : ℚ)
    (h : rollingVarAt v w i = some q) : 0 ≤ q := by
  rw [rollingVarAt] at h
  split at h
  · exact Option.noConfusion h
  · obtain rfl := (Option.some.injEq _ _).mp h
    exact sampleVar_nonneg _ (by omega)

theorem sqrt_threshold_equiv (t q a : ℚ) (ht : 0 ≤ t) (hq : 0 ≤ q) :
    ((t : ℝ) * Real.sqrt ((q : ℚ) : ℝ) < |((a : ℚ) : ℝ)| ↔ t * t * q < a ^ 2) := by
  have hqR : (0 : ℝ) ≤ ((q : ℚ) : ℝ) := by exact_mod_cast hq
  have htR : (0 : ℝ) ≤ ((t : ℚ) : ℝ) := by exact_mod_cast ht
  have hs : (0 : ℝ) ≤ Real.sqrt ((q : ℚ) : ℝ) := Real.sqrt_nonneg _
  have hs2 : Real.sqrt ((q : ℚ) : ℝ) ^ 2 = ((q : ℚ) : ℝ) := Real.sq_sqrt hqR
  rw [show ((t * t * q < a ^ 2) ↔ ((t : ℝ) * (t : ℝ) * ((q : ℚ) : ℝ) < ((a : ℚ) : ℝ) ^ 2)) by
    constructor <;> intro h <;> exact_mod_cast h]
  constructor
  · intro h
    nlinarith [abs_nonneg ((a : ℚ) : ℝ), sq_abs ((a : ℚ) : ℝ),
      mul_nonneg htR hs]
  · intro h
    by_contra hc
    push_neg at hc
    nlinarith [abs_nonneg ((a : ℚ) : ℝ), sq_abs ((a : ℚ) : ℝ),
      mul_nonneg htR hs]

/-- C5: a day of the daily-aggregated spend series enters the anomaly set
exactly when `|value - rolling_mean| > threshold * rolling_std` over its
trailing window (the source defaults: window 7, threshold 2.0; pandas
`min_periods=1` with `ddof=1` std), where a `NaN` rolling std (single
observation) makes the strict comparison false; and a constant daily series
never flags any day, whatever the threshold and window, because every rolling
standard deviation of it is zero (or `NaN` on the first day) and the strict
inequality against it excludes everything. -/
theorem anomaly_threshold_characterization :
    (∀ (daily : List (Date × ℚ)) (t : ℚ) (w i : Nat), 0 ≤ t →
      (i ∈ anomalyIdx daily t w ↔
        i < daily.length ∧
          ∃ q, rollingVarAt (daily.map Prod.snd) w i = some q ∧
            (t : ℝ) * Real.sqrt ((q : ℚ) : ℝ) <
              |(((daily.map Prod.snd).getD i 0 : ℚ) : ℝ) -
                ((rollingMeanAt (daily.map Prod.snd) w i : ℚ) : ℝ)|)) ∧
      (∀ (dates : List Date) (c t : ℚ) (w : Nat),
        anomalyIdx (dates.map fun d => (d, c)) t w = []) := by
  constructor
  · intro daily t w i ht
    rw [anomalyIdx, List.mem_filter, List.mem_range]
    apply and_congr_right
    intro _hi
    rw [anomalyFlagAt]
    cases hv : rollingVarAt (daily.map Prod.snd) w i with
    | none => simp
    | some q =>
      have hq := rollingVarAt_nonneg _ _ _ _ hv
      have := sqrt_threshold_equiv t q
        ((daily.map Prod.snd).getD i 0 - rollingMeanAt (daily.map Prod.snd) w i)
        ht hq
      push_cast at this
      simp only [decide_eq_true_eq, Option.some.injEq]
      constructor
      · intro h
        exact ⟨q, rfl, this.mpr h⟩
      · rintro ⟨q2, rfl, h⟩
        exact this.mp h
  · intro dates c t w
    rw [anomalyIdx, List.filter_eq_nil_iff]
    intro i hi
    rw [List.mem_range] at hi
    have hvals : (dates.map fun d => (d, c)).map Prod.snd =
        List.replicate dates.length c := by
      rw [List.map_map]
      exact List.map_const' _ _
    rw [List.length_map] at hi
    have hwin : ∀ j : Nat, windowAt (List.replicate dates.length c) w j =
        List.replicate (min (j + 1) dates.length - (j + 1 - w)) c := by
      intro j
      rw [windowAt, List.take_replicate, List.drop_replicate]
    intro hflag
    rw [hvals, anomalyFlagAt] at hflag
    set k := min (i + 1) dates.length - (i + 1 - w) with hk
    rw [rollingVarAt, hwin i] at hflag
    by_cases hk2 : (List.replicate k c).length < 2
    · rw [if_pos hk2] at hflag
      exact Bool.false_ne_true hflag
    · rw [if_neg hk2] at hflag
      rw [List.length_replicate] at hk2
      push_neg at hk2
      have hkz : (k : ℚ) ≠ 0 := by
        have : (2 : ℚ) ≤ (k : ℚ) := by exact_mod_cast hk2
        intro hc
        rw [hc] at this
        norm_num at this
      have hmean : meanQ (List.replicate k c) = c := by
        rw [meanQ, List.sum_replicate, List.length_replicate, nsmul_eq_mul,
          mul_comm, mul_div_assoc, div_self hkz, mul_one]
      have hdot : centeredDot (List.replicate k c) (List.replicate k c) = 0 := by
        rw [centeredDot]
        apply List.sum_eq_zero
        intro a ha
        obtain ⟨j, hj, rfl⟩ := List.mem_map.mp ha
        rw [List.mem_range, List.length_replicate] at hj
        rw [hmean, List.getD_eq_getElem?_getD, List.getElem?_replicate,
          if_pos hj]
        simp
      have hvar : sampleVar (List.replicate k c) = 0 := by
        rw [sampleVar, hdot, zero_div]
      rw [hvar] at hflag
      have hval : (List.replicate dates.length c).getD i 0 = c := by
        rw [List.getD_eq_getElem?_getD, List.getElem?_replicate, if_pos hi]
        rfl
      rw [decide_eq_true_eq, hval, rollingMeanAt, hwin i, ← hk, hmean] at hflag
      simp at hflag

/-- The P6 spike series: six flat days then one hundred. -/
def dailySpike : List (Date × ℚ) :=
  [(⟨2023, 1, 1⟩, 10), (⟨2023, 1, 2⟩, 10), (⟨2023, 1, 3⟩, 10),
   (⟨2023, 1, 4⟩, 10), (⟨2023, 1, 5⟩, 10), (⟨2023, 1, 6⟩, 10),
   (⟨2023, 1, 7⟩, 100)]

theorem anomaly_threshold_characterization_witness :
    0 ≤ (2 : ℚ) ∧ 6 ∈ anomalyIdx dailySpike 2 7 := by
  have hvals : dailySpike.map Prod.snd = [10, 10, 10, 10, 10, 10, 100] := rfl
  have hvar : rollingVarAt (dailySpike.map Prod.snd) 7 6 = some (8100 / 7) := by
    rw [hvals]
    norm_num [rollingVarAt, windowAt, sampleVar, centeredDot, meanQ,
      List.range_succ]
  have hmean : rollingMeanAt (dailySpike.map Prod.snd) 7 6 = 160 / 7 := by
    rw [hvals]
    norm_num [rollingMeanAt, windowAt, meanQ]
  have hget : (dailySpike.map Prod.snd).getD 6 0 = 100 := by
    rw [hvals]
    rfl
  refine ⟨by norm_num, ?_⟩
  apply (anomaly_threshold_characterization.1 dailySpike 2 7 6 (by norm_num)).mpr
  refine ⟨by norm_num [dailySpike], 8100 / 7, hvar, ?_⟩
  rw [hget, hmean]
  have h270 : (0 : ℝ) < 270 / 7 := by norm_num
  have hs : Real.sqrt (((8100 / 7 : ℚ) : ℝ)) < 270 / 7 := by
    rw [Real.sqrt_lt' h270]
    push_cast
    norm_num
  have habs : |((100 : ℚ) : ℝ) - ((160 / 7 : ℚ) : ℝ)| = 540 / 7 := by
    push_cast
    rw [abs_of_nonneg (by norm_num)]
    norm_num
  rw [habs]
  push_cast
  nlinarith [hs]

theorem centeredDot_self_eq_sq (x : List ℚ) :
    centeredDot x x = ∑ i ∈ Finset.range x.length, (x.getD i 0 - meanQ x) ^ 2 := by
  rw [show centeredDot x x = ∑ i ∈ Finset.range x.length,
      (x.getD i 0 - meanQ x) * (x.getD i 0 - meanQ x) from rfl]
  exact Finset.sum_congr rfl fun i _ => (pow_two _).symm

theorem centeredDot_cauchy (x y : List ℚ) (hlen : x.length = y.length) :
    centeredDot x y ^ 2 ≤ centeredDot x x * centeredDot y y := by
  have hxy : centeredDot x y = ∑ i ∈ Finset.range x.length,
      (x.getD i 0 - meanQ x) * (y.getD i 0 - meanQ y) := rfl
  have hyy : centeredDot y y = ∑ i ∈ Finset.range x.length,
      (y.getD i 0 - meanQ y) ^ 2 := by
    rw [centeredDot_self_eq_sq, hlen]
  rw [hxy, centeredDot_self_eq_sq, hyy]
  exact Finset.sum_mul_sq_le_sq_mul_sq _ _ _

theorem pearson_degenerate (x y : List ℚ)
    (h : centeredDot x x = 0 ∨ centeredDot y y = 0) : pearson x y = none := by
  rw [pearson, if_pos h]

/-- C3 (amended): every correlation coefficient the Correlation Analyzer
actually produces lies in `[-1, 1]`; but a zero-variance column does not give
the coefficient `0.0` — pandas returns `NaN` (missing) there, with no
exception raised.  The `0.0` fallback triple appears only when the `try`
block raises, e.g. when the optional `'Lead Time (Days)'` column is absent. -/
theorem correlation_bounds :
    (∀ (x y : List ℚ) (r : ℝ), x.length = y.length → pearson x y = some r →
      -1 ≤ r ∧ r ≤ 1) ∧
      (∀ x2 y2 : List ℚ, centeredDot x2 x2 = 0 ∨ centeredDot y2 y2 = 0 →
        pearson x2 y2 = none) ∧
      (∀ df : DataFrame, df.lead_time = none →
        analyze_correlations df = corrFallback) := by
  refine ⟨?_, fun x2 y2 h => pearson_degenerate x2 y2 h, ?_⟩
  · intro x y r hlen hr
    rw [pearson] at hr
    by_cases h : centeredDot x x = 0 ∨ centeredDot y y = 0
    · rw [if_pos h] at hr
      exact absurd hr (by simp)
    · rw [if_neg h] at hr
      push_neg at h
      obtain ⟨hx, hy⟩ := h
      obtain rfl := (Option.some.injEq _ _).mp hr
      set A := ((centeredDot x x : ℚ) : ℝ) with hA
      set B := ((centeredDot y y : ℚ) : ℝ) with hB
      set C := ((centeredDot x y : ℚ) : ℝ) with hC
      have hApos : 0 < A := by
        rw [hA]
        exact_mod_cast lt_of_le_of_ne (centeredDot_self_nonneg x)
          (fun hc => hx hc.symm)
      have hBpos : 0 < B := by
        rw [hB]
        exact_mod_cast lt_of_le_of_ne (centeredDot_self_nonneg y)
          (fun hc => hy hc.symm)
      have hcs : C ^ 2 ≤ A * B := by
        rw [hA, hB, hC]
        exact_mod_cast centeredDot_cauchy x y hlen
      have hden : 0 < Real.sqrt A * Real.sqrt B :=
        mul_pos (Real.sqrt_pos.mpr hApos) (Real.sqrt_pos.mpr hBpos)
      apply abs_le.mp
      rw [abs_div, abs_of_pos hden, div_le_one hden]
      calc |C| = Real.sqrt (C ^ 2) := (Real.sqrt_sq_eq_abs C).symm
        _ ≤ Real.sqrt (A * B) := Real.sqrt_le_sqrt hcs
        _ = Real.sqrt A * Real.sqrt B := Real.sqrt_mul hApos.le B
  · intro df h
    cases hsp : df.total_spend <;> cases hq : df.quantity_purchased <;>
      simp [analyze_correlations, correlationsRaw, col, h, hsp, hq, bind,
        Except.bind]

theorem correlation_bounds_witness :
    ([(0 : ℚ), 1].length = [(0 : ℚ), 1].length ∧
        pearson [(0 : ℚ), 1] [(0 : ℚ), 1] = some 1) ∧
      (-1 ≤ (1 : ℝ) ∧ (1 : ℝ) ≤ 1) := by
  have hd : centeredDot [(0 : ℚ), 1] [(0 : ℚ), 1] = 1 / 2 := by
    norm_num [centeredDot, meanQ, List.range_succ]
  have hp : pearson [(0 : ℚ), 1] [(0 : ℚ), 1] = some 1 := by
    rw [pearson, if_neg (by rw [hd]; norm_num)]
    rw [hd]
    congr 1
    rw [Real.mul_self_sqrt (by push_cast; norm_num)]
    push_cast
    norm_num
  exact ⟨⟨rfl, hp⟩, correlation_bounds.1 [0, 1] [0, 1] 1 rfl hp⟩

/-- A frame whose spend column has zero variance while the other two columns
vary. -/
def cdf : DataFrame :=
  { total_spend := some [4, 4], quantity_purchased := some [1, 2],
    lead_time := some [1, 2] }

/-- C3 (counterexample to the claim as stated): on a concrete frame whose
spend column is constant (zero variance), the spend-quantity coefficient the
engine returns is `NaN` (missing), not the claimed `0.0`; no exception was
raised (so the `0.0` fallback path was not taken). -/
theorem correlation_zero_variance_counterexample :
    (analyze_correlations cdf).spend_quantity = none ∧
      (analyze_correlations cdf).spend_quantity ≠ some 0 ∧
      centeredDot [(4 : ℚ), 4] [(4 : ℚ), 4] = 0 := by
  have hz : centeredDot [(4 : ℚ), 4] [(4 : ℚ), 4] = 0 := by
    norm_num [centeredDot, meanQ, List.range_succ]
  have hrec : (analyze_correlations cdf).spend_quantity =
      pearson [4, 4] [1, 2] := rfl
  rw [hrec, pearson_degenerate [4, 4] [1, 2] (Or.inl hz)]
  exact ⟨rfl, by simp, hz⟩

/-- A decorated one-row frame (the shape `prepare_data` leaves behind) with
every engine column except the optional `'Lead Time (Days)'`. -/
def dfL : DataFrame :=
  { transaction_date := some [⟨2023, 1, 15⟩], total_spend := some [5],
    quantity_purchased := some [3], year := some [2023], month := some [1],
    quarter := some [1], month_year := some [((2023 : Int), 1)],
    day_of_week := some ["Sunday"] }

/-- C1 (amended): the five helper components of the Analysis Result are
individually fault-isolated — whenever `enhanced_time_analysis` returns a
result at all, each helper block in it equals the output of that total,
internally `try/except`-guarded helper (fallback on its internal failure) —
and concretely, a failure injected into the Correlation Analyzer (absent
lead-time column) yields its `0.0` fallback block while trend metrics,
anomalies, purchase patterns, seasonality and the growth series of the same
run are all computed normally.  What is not isolated is the inline
growth/moving-average/peak/day-of-week code of `enhanced_time_analysis`
itself (see the companion counterexample). -/
theorem fault_isolation_helpers :
    (∀ (dm : DecompFun) (df : DataFrame) (cfg : Option Config),
      (enhanced_time_analysis dm df cfg).elim True fun r =>
        r.trend_analysis = calculate_trend_metrics df ∧
        r.anomalies = detect_anomalies df cfg ∧
        r.purchase_patterns = analyze_purchase_patterns df ∧
        r.correlations = analyze_correlations df ∧
        r.seasonality_metrics = analyze_seasonality dm df cfg) ∧
      ((enhanced_time_analysis dmZ dfL (some {})).elim False fun r =>
        r.correlations = corrFallback ∧
        r.seasonality_metrics = SeasonalityResult.insufficient insufficientMsg ∧
        r.trend_analysis =
          { direction := "Downward", strength := none, is_accelerating := false,
            acceleration_rate := none } ∧
        r.anomalies = anomalyFallback ∧
        r.purchase_patterns =
          { monthly_aov := [(((2023 : Int), 1), 5)],
            purchase_frequency := [(((2023 : Int), 1), 1)],
            basket_size := [(((2023 : Int), 1), 3)] } ∧
        r.monthly_growth = [(((2023 : Int), 1), none)]) := by
  constructor
  · intro dm df cfg
    obtain ⟨td, sp, qp, lt, yr, mo, qt, mk, dw⟩ := df
    cases yr <;> cases sp <;> cases qt <;> cases mk <;> cases dw <;> cases qp <;>
      simp [enhanced_time_analysis, enhancedRaw, col, bind, Except.bind, pure,
        Except.pure]
  · have hyr : dfL.year = some [2023] := rfl
    have hsp : dfL.total_spend = some [5] := rfl
    have hqt : dfL.quarter = some [1] := rfl
    have hmk : dfL.month_year = some [((2023 : Int), 1)] := rfl
    have hdw : dfL.day_of_week = some ["Sunday"] := rfl
    have hq : dfL.quantity_purchased = some [3] := rfl
    have hpp : analyze_purchase_patterns dfL =
        { monthly_aov := [(((2023 : Int), 1), 5)],
          purchase_frequency := [(((2023 : Int), 1), 1)],
          basket_size := [(((2023 : Int), 1), 3)] } := by
      simp +decide only [analyze_purchase_patterns, purchasePatternsRaw, dfL,
        col, bind, Except.bind, pure, Except.pure, groupSum, groupCount,
        groupMean, groupKeys, sortOn, sInsert, monthLe, List.map, List.filter,
        List.zip, List.zipWith, List.dedup, List.sum, List.length, round2, meanQ]
      norm_num
    simp only [enhanced_time_analysis, enhancedRaw, hyr, hsp, hqt, hmk, hdw, hq,
      col, bind, Except.bind, pure, Except.pure, Option.elim]
    refine ⟨rfl, rfl, rfl, rfl, hpp, rfl⟩

/-- A decorated one-row frame missing the mandatory spend column (the other
engine columns, the optional lead time included, are all present). -/
def dfNoSpend : DataFrame :=
  { transaction_date := some [⟨2023, 1, 15⟩],
    quantity_purchased := some [3], lead_time := some [2],
    year := some [2023], month := some [1], quarter := some [1],
    month_year := some [((2023 : Int), 1)], day_of_week := some ["Sunday"] }

/-- C1 (counterexample to the claim as stated): on a concrete frame where the
growth computation fails (spend column absent, raising `KeyError` inside the
inline growth block), the whole analysis returns `None` — no block of the
Analysis Result survives, even though every helper component has a
well-defined fallback for the same frame.  The growth/trend block's failure
aborts the whole analysis instead of degrading to a fallback while the other
components' blocks are delivered. -/
theorem growth_failure_aborts_analysis :
    enhanced_time_analysis dmZ dfNoSpend (some {}) = none ∧
      calculate_trend_metrics dfNoSpend = trendFallback ∧
      detect_anomalies dfNoSpend (some {}) = anomalyFallback ∧
      analyze_purchase_patterns dfNoSpend = purchaseFallback ∧
      analyze_correlations dfNoSpend = corrFallback ∧
      analyze_seasonality dmZ dfNoSpend (some {}) =
        SeasonalityResult.insufficient
          "Error in seasonal analysis: KeyError: Total Spend ($)" := by
  refine ⟨?_, rfl, rfl, rfl, rfl, rfl⟩
  have hyr : dfNoSpend.year = some [2023] := rfl
  have hsp : dfNoSpend.total_spend = none := rfl
  simp only [enhanced_time_analysis, enhancedRaw, hyr, hsp, col, bind,
    Except.bind]
